import Mathlib

/-!
Verification of the `DebugServer` orchestration core of the
`claude-debugs-for-you` VS Code extension, shallowly embedded in Lean.

The embedding follows the TypeScript source of `DebugServer`
(`handleDebug`, `handleLaunch`, `waitForDebugSession`, `handleGetFile`,
and the `POST /messages` route of `start`).  External collaborators
(the VS Code debug backend, the workspace, timers) are modelled as an
explicit oracle record `Backend` supplying the responses the code awaits,
and the ambient mutable host state (`vscode.debug.breakpoints`,
`vscode.debug.activeDebugSession`, issued start-debugging requests) is an
explicit `DebugState` threaded through the step interpreter.
-/

/-- Step kinds of the `DebugStep` TypeScript interface. -/
inductive StepType where
  | setBreakpoint
  | removeBreakpoint
  | cont
  | evaluate
  | launch
deriving DecidableEq, Repr

/-- The `DebugStep` record of the source.  The TypeScript interface marks
`file` as required and the rest optional, but at runtime every field can be
absent (`undefined`); the source guards with JavaScript truthiness checks, so
all payload fields are modelled as `Option`. -/
structure DebugStep where
  type : StepType
  file : Option String := none
  line : Option Nat := none
  expression : Option String := none
  condition : Option String := none
deriving DecidableEq, Repr

/-- JavaScript truthiness of an optional number field: `!x` holds for
`undefined` and for `0`. -/
def natFalsy : Option Nat → Bool
  | none => true
  | some n => n == 0

/-- JavaScript truthiness of an optional string field: `!x` holds for
`undefined` and for the empty string. -/
def strFalsy : Option String → Bool
  | none => true
  | some s => s == ""

/-- JavaScript template interpolation of a possibly-`undefined` string. -/
def optStr : Option String → String
  | none => "undefined"
  | some s => s

/-- A `vscode.SourceBreakpoint`: location (uri rendered as a string,
zero-based line, column), enabled flag, optional condition. -/
structure SourceBreakpoint where
  file : String
  line : Nat
  column : Nat
  enabled : Bool
  condition : Option String
deriving DecidableEq, Repr

/-- An entry of `vscode.debug.breakpoints`: either a source breakpoint or
some other kind (e.g. a function breakpoint), which the
`instanceof vscode.SourceBreakpoint` filters of the source reject. -/
inductive Breakpoint where
  | source (bp : SourceBreakpoint)
  | other (name : String)
deriving DecidableEq, Repr

/-- One entry of a Debug Adapter Protocol stack-trace response. -/
structure Frame where
  id : Nat
  sourcePath : String
  line : Int
deriving DecidableEq, Repr

/-- A stored launch configuration: its string-valued fields and its
optional `env` map (an object, hence skipped by the string-field loop and
handled by the dedicated `env` loop of `handleLaunch`). -/
structure LaunchConfig where
  fields : List (String × String)
  env : Option (List (String × String))
deriving DecidableEq, Repr

/-- Errors thrown by the orchestration code (`throw new Error(...)` sites)
or surfaced by the backend. -/
inductive DebugErr where
  | lineRequired
  | fileRequired
  | noActiveSession
  | noWorkspaceFolder
  | noLaunchConfig
  | timeout
  | openFailed (path : String)
  | backend (msg : String)
deriving DecidableEq, Repr

/-- The ambient host state mutated by plan execution:
`vscode.debug.breakpoints`, whether `vscode.debug.activeDebugSession` is
set, and the log of `vscode.debug.startDebugging` requests issued. -/
structure DebugState where
  breakpoints : List Breakpoint
  activeSession : Bool
  startRequests : List LaunchConfig
deriving DecidableEq, Repr

/-- Oracle for every external call the orchestrator awaits.  Responses are
fixed per request shape; `Except.error` models a rejected promise, with the
string the stringified error. -/
structure Backend where
  /-- `vscode.workspace.openTextDocument` / `showTextDocument` resolve. -/
  openDocOk : String → Bool
  /-- Text of the document at a path, used by `handleGetFile`. -/
  docText : String → String
  /-- Response to `session.customRequest` with the `continue` command. -/
  continueResp : Except String Unit
  /-- Response to the stack-trace request of the evaluate case
  (`threadId: 1`).  `Except.ok []` covers the three falsy conditions
  `!frames`, `!frames.stackFrames` and `frames.stackFrames.length === 0`,
  which the source treats identically. -/
  stackTraceResp : Except String (List Frame)
  /-- Response to the evaluate request for a given expression field. -/
  evalResp : Option String → Except String String
  /-- First workspace folder path, if any. -/
  workspaceFolder : Option String
  /-- The `configurations` array of the stored launch configuration. -/
  launchConfigurations : Option (List LaunchConfig)
  /-- Whether `vscode.debug.activeDebugSession` is set at poll number `k`
  of `waitForDebugSession` (polls are 100ms apart, the first immediate). -/
  sessionAvail : Nat → Bool
  /-- Response to the `threads` request of the post-launch inspection
  (list of thread ids). -/
  threadsResp : Except String (List Nat)
  /-- Response to the stack-trace request of the post-launch inspection. -/
  launchStackResp : Except String (List Frame)

/-- Char-level engine of `replaceFirst`: scans left to right and replaces
the first occurrence of `pat`, if any. -/
def listReplaceFirst (pat rep : List Char) : List Char → List Char
  | [] => if pat.isPrefixOf [] then rep else []
  | c :: cs =>
    if pat.isPrefixOf (c :: cs) then rep ++ (c :: cs).drop pat.length
    else c :: listReplaceFirst pat rep cs

/-- JavaScript `String.prototype.replace` with a plain-string pattern:
replaces only the first occurrence. -/
def replaceFirst (s pat rep : String) : String :=
  ⟨listReplaceFirst pat.data rep.data s.data⟩

/-- Char-level engine of the JavaScript `split` on a single-character
separator: every occurrence separates, so `n` separators yield `n + 1`
segments (the result is never empty). -/
def splitOnChar (sep : Char) : List Char → List (List Char)
  | [] => [[]]
  | c :: cs =>
    match splitOnChar sep cs with
    | [] => [[]]
    | l :: ls => if c = sep then [] :: l :: ls else (c :: l) :: ls

/-- JavaScript `text.split('\n')` of `handleGetFile`. -/
def jsSplitLines (s : String) : List String :=
  (splitOnChar (Char.ofNat 0x0a) s.data).map String.mk

/-- Placeholder substitution of `handleLaunch`: every string-valued field
has its first `${file}` replaced by the program path, and inside the `env`
map every value has its first `${workspaceFolder}` replaced by the
workspace folder path. -/
def substituteConfig (program wsPath : String) (c : LaunchConfig) : LaunchConfig :=
  { fields := c.fields.map (fun kv => (kv.1, replaceFirst kv.2 "${file}" program)),
    env := c.env.map (fun m => m.map (fun kv => (kv.1, replaceFirst kv.2 "${workspaceFolder}" wsPath))) }

/-- Poll interval of `waitForDebugSession` in milliseconds. -/
def pollIntervalMs : Nat := 100

/-- Rejection deadline of `waitForDebugSession` in milliseconds. -/
def sessionTimeoutMs : Nat := 5000

/-- The polling loop of `waitForDebugSession`: checks availability at
poll index `k`, retries after 100ms while fuel remains. -/
def waitPoll (avail : Nat → Bool) : Nat → Nat → Option Nat
  | _, 0 => none
  | k, fuel + 1 => if avail k then some k else waitPoll avail (k + 1) fuel

/-- `waitForDebugSession`: polls `vscode.debug.activeDebugSession` at a
fixed 100ms interval; the 5000ms timeout rejects before the poll whose
instant would reach the deadline, so exactly the polls at instants
`100 * k < 5000` can resolve.  Returns the poll index that found a
session, or `none` for the timeout rejection. -/
def waitForDebugSession (avail : Nat → Bool) : Option Nat :=
  waitPoll avail 0 (sessionTimeoutMs / pollIntervalMs)

/-- The post-launch breakpoint inspection of `handleLaunch` (its
`try`/`catch` block): every failure inside, including the out-of-bounds
access `threads.threads[0].id` on an empty thread list, is caught and
downgraded to the generic message. -/
def launchInspect (env : Backend) (st : DebugState) : String :=
  match env.threadsResp with
  | .error _ => "Debug session started"
  | .ok [] => "Debug session started"
  | .ok (_ :: _) =>
    match env.launchStackResp with
    | .error _ => "Debug session started"
    | .ok [] => "Debug session started"
    | .ok (topFrame :: _) =>
      let currentBreakpoints := st.breakpoints.filter fun bp =>
        match bp with
        | .source sb => sb.file == topFrame.sourcePath && (sb.line : Int) == topFrame.line - 1
        | .other _ => false
      if currentBreakpoints.length > 0 then
        s!"Debug session started - Stopped at breakpoint on line {topFrame.line}"
      else
        "Debug session started"

/-- `DebugServer.handleLaunch`: reads the first stored launch
configuration (failing when none exists), substitutes placeholders,
issues the start-debugging request, waits for a session, then inspects
the stopped state best-effort.  Returns the possibly-updated host state
together with the result string or the thrown error. -/
def handleLaunch (env : Backend) (st : DebugState) (program : String) :
    DebugState × Except DebugErr String :=
  match env.workspaceFolder with
  | none => (st, .error .noWorkspaceFolder)
  | some wsPath =>
    match env.launchConfigurations with
    | none => (st, .error .noLaunchConfig)
    | some [] => (st, .error .noLaunchConfig)
    | some (c0 :: _) =>
      let config := substituteConfig program wsPath c0
      let st' := { st with startRequests := st.startRequests ++ [config] }
      match waitForDebugSession env.sessionAvail with
      | none => (st', .error .timeout)
      | some _ =>
        let st'' := { st' with activeSession := true }
        (st'', .ok (launchInspect env st''))

/-- The filter predicate of the removeBreakpoint case: an entry of
`vscode.debug.breakpoints` matches when it is a source breakpoint whose
zero-based start line equals the given line — the file is not consulted. -/
def bpMatchesLine (l : Nat) : Breakpoint → Bool
  | .source sb => sb.line == l
  | .other _ => false

/-- Output of executing one `DebugStep`: result lines pushed, error
messages shown via `vscode.window.showErrorMessage`, the host state after
the step, and the error that aborted it, if any. -/
structure StepExec where
  results : List String
  warnings : List String
  state : DebugState
  error : Option DebugErr
deriving DecidableEq, Repr

/-- One iteration of the `switch` of `DebugServer.handleDebug`. -/
def execStep (env : Backend) (st : DebugState) (step : DebugStep) : StepExec :=
  match step.type with
  | .setBreakpoint =>
    if natFalsy step.line then ⟨[], [], st, some .lineRequired⟩
    else if strFalsy step.file then ⟨[], [], st, some .fileRequired⟩
    else
      let file := optStr step.file
      let line := step.line.getD 0
      if env.openDocOk file then
        let bp : Breakpoint := .source ⟨file, line - 1, 0, true, step.condition⟩
        ⟨[s!"Set breakpoint at line {line}"], [],
          { st with breakpoints := st.breakpoints ++ [bp] }, none⟩
      else ⟨[], [], st, some (.openFailed file)⟩
  | .removeBreakpoint =>
    if natFalsy step.line then ⟨[], [], st, some .lineRequired⟩
    else
      let line := step.line.getD 0
      ⟨[s!"Removed breakpoint at line {line}"], [],
        { st with breakpoints := st.breakpoints.filter (fun bp => !(bpMatchesLine (line - 1) bp)) },
        none⟩
  | .cont =>
    if !st.activeSession then ⟨[], [], st, some .noActiveSession⟩
    else
      match env.continueResp with
      | .error m => ⟨[], [], st, some (.backend m)⟩
      | .ok _ => ⟨["Continued execution"], [], st, none⟩
  | .evaluate =>
    if !st.activeSession then ⟨[], [], st, some .noActiveSession⟩
    else
      match env.stackTraceResp with
      | .error m => ⟨[], [], st, some (.backend m)⟩
      | .ok [] => ⟨[], ["No stack frame available"], st, none⟩
      | .ok (_ :: _) =>
        match env.evalResp step.expression with
        | .error m => ⟨[], [s!"Failed to execute: {m}"], st, none⟩
        | .ok value =>
          ⟨[s!"Evaluated \"{optStr step.expression}\": {value}"], [], st, none⟩
  | .launch =>
    match handleLaunch env st (optStr step.file) with
    | (st', .error e) => ⟨[], [], st', some e⟩
    | (st', .ok _) => ⟨[], [], st', none⟩

/-- Outcome of a whole plan: accumulated result lines, accumulated shown
error messages, final host state, and the error of the step that aborted
the plan, if any (on which the promise of `handleDebug` rejects). -/
structure DebugRun where
  results : List String
  warnings : List String
  state : DebugState
  error : Option DebugErr
deriving DecidableEq, Repr

/-- `DebugServer.handleDebug`: executes the steps strictly in order,
accumulating one pushed line per step that pushes one, stopping at the
first step that throws. -/
def handleDebug (env : Backend) (st : DebugState) : List DebugStep → DebugRun
  | [] => ⟨[], [], st, none⟩
  | step :: rest =>
    let s := execStep env st step
    match s.error with
    | some e => ⟨s.results, s.warnings, s.state, some e⟩
    | none =>
      let r := handleDebug env s.state rest
      ⟨s.results ++ r.results, s.warnings ++ r.warnings, r.state, r.error⟩

/-- The intermediate list `lines.map((line, i) => ...)` of
`DebugServer.handleGetFile`: the text split on newlines, each line
prefixed with its 1-based number and a colon-space. -/
def numberedLines (text : String) : List String :=
  (jsSplitLines text).enum.map fun p => s!"{p.1 + 1}: {p.2}"

/-- `DebugServer.handleGetFile`: opens the document (failing when the
path cannot be opened) and returns the newline-joined numbered lines. -/
def handleGetFile (env : Backend) (path : String) : Except DebugErr String :=
  if env.openDocOk path then
    .ok (String.intercalate "\n" (numberedLines (env.docText path)))
  else
    .error (.openFailed path)

/-- Response of the `POST /messages` route. -/
inductive PostResponse where
  | badRequest
  | notFound
  | forwarded (sessionId : String)
deriving DecidableEq, Repr

/-- The `POST /messages` route of `DebugServer.start`: the `sessionId`
query parameter is read (`null` when absent, possibly empty); a falsy
value yields 400, an unbound one 404, and only a bound one is forwarded
to the transport handler. -/
def handleMessagePost (activeTransports : List String) (sessionId : Option String) :
    PostResponse :=
  match sessionId with
  | none => .badRequest
  | some sid =>
    if sid == "" then .badRequest
    else if activeTransports.contains sid then .forwarded sid
    else .notFound

/-! ### Concrete fixtures

A benign oracle and host states used to evaluate the definitions on
concrete inputs. -/

/-- Host state with no breakpoints and no active session. -/
def stEmpty : DebugState := ⟨[], false, []⟩

/-- Host state with no breakpoints and an active session. -/
def stActive : DebugState := ⟨[], true, []⟩

/-- A benign backend: documents open, one stored launch configuration, a
session available at the first poll, one thread, one stack frame, and
evaluations answering `42`. -/
def envA : Backend :=
  { openDocOk := fun _ => true
    docText := fun _ => "alpha\nbeta"
    continueResp := .ok ()
    stackTraceResp := .ok [⟨7, "/w/a.py", 10⟩]
    evalResp := fun _ => .ok "42"
    workspaceFolder := some "/w"
    launchConfigurations := some [⟨[("program", "${file}")], none⟩]
    sessionAvail := fun _ => true
    threadsResp := .ok [1]
    launchStackResp := .ok [] }

/-- `envA` with every evaluation request rejected. -/
def envEvalFail : Backend := { envA with evalResp := fun _ => .error "Error: boom" }

/-- `envA` with a stack-trace response carrying no frames. -/
def envNoFrames : Backend := { envA with stackTraceResp := .ok [] }

/-- `envA` with an empty stored launch configuration list. -/
def envNoConfig : Backend := { envA with launchConfigurations := some [] }

/-! ### Helper lemmas about plan execution -/

/-- One step pushes at most one result line. -/
theorem execStep_results_le_one (env : Backend) (st : DebugState) (step : DebugStep) :
    (execStep env st step).results.length ≤ 1 := by
  unfold execStep
  cases step.type <;> dsimp only <;>
    (repeat' first | split | rfl | decide) <;> simp

/-- Splitting a plan at a successful prefix: the suffix runs from the
prefix's final state and the outputs concatenate. -/
theorem handleDebug_append_of_ok (env : Backend) (st : DebugState) (xs ys : List DebugStep)
    (h : (handleDebug env st xs).error = none) :
    handleDebug env st (xs ++ ys) =
      ⟨(handleDebug env st xs).results ++ (handleDebug env (handleDebug env st xs).state ys).results,
       (handleDebug env st xs).warnings ++ (handleDebug env (handleDebug env st xs).state ys).warnings,
       (handleDebug env (handleDebug env st xs).state ys).state,
       (handleDebug env (handleDebug env st xs).state ys).error⟩ := by
  induction xs generalizing st with
  | nil => simp [handleDebug]
  | cons x xs ih =>
    simp only [List.cons_append, handleDebug] at h ⊢
    cases hx : (execStep env st x).error with
    | some e => simp [hx] at h
    | none =>
      simp only [hx] at h ⊢
      simp [ih _ h, List.append_assoc]

/-- A failing prefix absorbs the rest of the plan: nothing after the first
hard-failing step executes. -/
theorem handleDebug_append_of_error (env : Backend) (st : DebugState) (xs ys : List DebugStep)
    (h : (handleDebug env st xs).error ≠ none) :
    handleDebug env st (xs ++ ys) = handleDebug env st xs := by
  induction xs generalizing st with
  | nil => simp [handleDebug] at h
  | cons x xs ih =>
    simp only [List.cons_append, handleDebug] at h ⊢
    cases hx : (execStep env st x).error with
    | some e => simp [hx]
    | none =>
      simp only [hx] at h ⊢
      simp [ih _ h]

/-- The result sequence never exceeds the plan length. -/
theorem handleDebug_results_le (env : Backend) (st : DebugState) (steps : List DebugStep) :
    (handleDebug env st steps).results.length ≤ steps.length := by
  induction steps generalizing st with
  | nil => simp [handleDebug]
  | cons x xs ih =>
    simp only [handleDebug]
    cases hx : (execStep env st x).error with
    | some e =>
      dsimp only
      calc (execStep env st x).results.length ≤ 1 := execStep_results_le_one env st x
        _ ≤ (x :: xs).length := by simp
    | none =>
      dsimp only
      simp only [List.length_append, List.length_cons]
      have h1 := execStep_results_le_one env st x
      have h2 := ih (execStep env st x).state
      omega

/-- The polling loop times out when no poll inside its fuel window finds a
session. -/
theorem waitPoll_eq_none (avail : Nat → Bool) (fuel : Nat) :
    ∀ k, (∀ i, k ≤ i → i < k + fuel → avail i = false) →
      waitPoll avail k fuel = none := by
  induction fuel with
  | zero => intro k _; rfl
  | succ n ih =>
    intro k h
    have hk : avail k = false := h k le_rfl (by omega)
    simp only [waitPoll, hk, Bool.false_eq_true, if_false]
    exact ih (k + 1) fun i h1 h2 => h i (by omega) (by omega)

/-- If some poll inside the fuel window finds a session, the loop resolves
at the first such poll. -/
theorem waitPoll_found (avail : Nat → Bool) (j : Nat) (ha : avail j = true) :
    ∀ fuel k, k ≤ j → j < k + fuel →
      ∃ m, waitPoll avail k fuel = some m ∧ avail m = true ∧ m ≤ j ∧
        ∀ i, k ≤ i → i < m → avail i = false := by
  intro fuel
  induction fuel with
  | zero => intro k h1 h2; omega
  | succ n ih =>
    intro k h1 h2
    by_cases hk : avail k = true
    · exact ⟨k, by simp [waitPoll, hk], hk, h1, fun i hi1 hi2 => absurd hi1 (by omega)⟩
    · have hk' : avail k = false := by
        cases hav : avail k with
        | false => rfl
        | true => exact absurd hav hk
      have h1' : k + 1 ≤ j := by
        rcases Nat.eq_or_lt_of_le h1 with rfl | hlt
        · exact absurd ha hk
        · omega
      obtain ⟨m, hm, hma, hmj, hmin⟩ := ih (k + 1) h1' (by omega)
      refine ⟨m, by simp [waitPoll, hk', hm], hma, hmj, fun i hi1 hi2 => ?_⟩
      by_cases hik : i = k
      · exact hik ▸ hk'
      · exact hmin i (by omega) hi2

/-- `numberedLines` has one entry per split line. -/
theorem numberedLines_length (text : String) :
    (numberedLines text).length = (jsSplitLines text).length := by
  simp [numberedLines]

/-- Each entry of `numberedLines` is the 1-based index, a colon and a
space, then the original line. -/
theorem numberedLines_getD (text : String) (i : Nat)
    (h : i < (jsSplitLines text).length) :
    (numberedLines text).getD i "" =
      (let l := (jsSplitLines text).getD i ""
       s!"{i + 1}: {l}") := by
  simp [numberedLines, List.getD_eq_getElem?_getD, List.getElem?_map, List.getElem?_enum,
    List.getElem?_eq_getElem h]

/-! ### Claims -/

/-- C1 (amended): the result sequence of `handleDebug` never exceeds the
plan length and accumulates in submission order — a successful prefix
contributes its lines first and the suffix runs from the prefix's final
state — and a hard-failing prefix absorbs the rest of the plan, so
truncation happens exactly at the first hard-failing step.  Equality of
lengths, however, can fail without any hard failure, because a successful
Launch step pushes no result line (see `c1_counterexample`). -/
theorem c1_results_bounded_and_truncated (env : Backend) (st : DebugState) :
    (∀ steps, (handleDebug env st steps).results.length ≤ steps.length) ∧
    (∀ xs ys, (handleDebug env st xs).error = none →
      (handleDebug env st (xs ++ ys)).results =
        (handleDebug env st xs).results ++
          (handleDebug env (handleDebug env st xs).state ys).results) ∧
    (∀ xs ys, (handleDebug env st xs).error ≠ none →
      handleDebug env st (xs ++ ys) = handleDebug env st xs) := by
  refine ⟨handleDebug_results_le env st, ?_, handleDebug_append_of_error env st⟩
  intro xs ys h
  rw [handleDebug_append_of_ok env st xs ys h]

/-- C1 witness: a concrete successful prefix (a Continue step) followed by
a RemoveBreakpoint step accumulates its lines in order. -/
theorem c1_witness :
    (handleDebug envA stActive
        ([{ type := .cont }] ++ [{ type := .removeBreakpoint, line := some 3 }])).results =
      (handleDebug envA stActive [{ type := .cont }]).results ++
        (handleDebug envA (handleDebug envA stActive [{ type := .cont }]).state
          [{ type := .removeBreakpoint, line := some 3 }]).results :=
  (c1_results_bounded_and_truncated envA stActive).2.1
    [{ type := .cont }] [{ type := .removeBreakpoint, line := some 3 }] rfl

/-- C1 counterexample: the one-step plan `[launch]` succeeds end to end —
no step raises a hard failure — yet returns zero result lines, not one
status line per executed step. -/
theorem c1_counterexample :
    (handleDebug envA stEmpty [{ type := .launch, file := some "/w/a.py" }]).error = none ∧
    (handleDebug envA stEmpty [{ type := .launch, file := some "/w/a.py" }]).results.length = 0 ∧
    ([{ type := .launch, file := some "/w/a.py" }] : List DebugStep).length = 1 :=
  ⟨rfl, rfl, rfl⟩

/-- C2: a Continue or Evaluate step reached while no backend session is
active fails with the no-active-session error, aborting the remaining plan
before any result line of the step is pushed. -/
theorem c2_no_session_aborts (env : Backend) (st : DebugState) (step : DebugStep)
    (rest : List DebugStep) (hty : step.type = .cont ∨ step.type = .evaluate)
    (hses : st.activeSession = false) :
    handleDebug env st (step :: rest) = ⟨[], [], st, some .noActiveSession⟩ := by
  rcases hty with h | h <;> simp [handleDebug, execStep, h, hses]

/-- C2 witness: the plan `[Evaluate "x+1"]` with no active session aborts
immediately with the no-active-session error and an empty result
sequence. -/
theorem c2_witness :
    handleDebug envA stEmpty [{ type := .evaluate, expression := some "x+1" }] =
      ⟨[], [], stEmpty, some .noActiveSession⟩ :=
  c2_no_session_aborts envA stEmpty { type := .evaluate, expression := some "x+1" } []
    (Or.inr rfl) rfl

/-- C3 (amended): a failing backend evaluation during an Evaluate step is
caught, surfaced as a visible error message, appends no result line, and
every remaining step of the plan still executes. -/
theorem c3_eval_failure_caught (env : Backend) (st : DebugState) (step : DebugStep)
    (rest : List DebugStep) (m : String) (f : Frame) (fs : List Frame)
    (hty : step.type = .evaluate) (hses : st.activeSession = true)
    (hframes : env.stackTraceResp = .ok (f :: fs))
    (heval : env.evalResp step.expression = .error m) :
    handleDebug env st (step :: rest) =
      ⟨(handleDebug env st rest).results,
       s!"Failed to execute: {m}" :: (handleDebug env st rest).warnings,
       (handleDebug env st rest).state,
       (handleDebug env st rest).error⟩ := by
  simp [handleDebug, execStep, hty, hses, hframes, heval]

/-- C3 witness: a failing evaluation followed by a RemoveBreakpoint step —
the failure is shown as a message, the remaining step runs and pushes its
line, and the plan ends without error. -/
theorem c3_witness :
    handleDebug envEvalFail stActive
        [{ type := .evaluate, expression := some "x+1" },
         { type := .removeBreakpoint, line := some 3 }] =
      ⟨(handleDebug envEvalFail stActive [{ type := .removeBreakpoint, line := some 3 }]).results,
       "Failed to execute: Error: boom" ::
         (handleDebug envEvalFail stActive
           [{ type := .removeBreakpoint, line := some 3 }]).warnings,
       (handleDebug envEvalFail stActive [{ type := .removeBreakpoint, line := some 3 }]).state,
       (handleDebug envEvalFail stActive
         [{ type := .removeBreakpoint, line := some 3 }]).error⟩ :=
  c3_eval_failure_caught envEvalFail stActive { type := .evaluate, expression := some "x+1" }
    [{ type := .removeBreakpoint, line := some 3 }] "Error: boom" ⟨7, "/w/a.py", 10⟩ []
    rfl rfl rfl rfl

/-- C3 counterexample: with an active session, a frame available and the
evaluation request failing, the one-step plan ends without error and with
a visible message — but the result sequence is empty: the failure is not
reported as a visible result line. -/
theorem c3_counterexample :
    (handleDebug envEvalFail stActive
      [{ type := .evaluate, expression := some "x+1" }]).results = [] ∧
    (handleDebug envEvalFail stActive
      [{ type := .evaluate, expression := some "x+1" }]).warnings =
        ["Failed to execute: Error: boom"] ∧
    (handleDebug envEvalFail stActive
      [{ type := .evaluate, expression := some "x+1" }]).error = none :=
  ⟨rfl, rfl, rfl⟩

/-- C4: a RemoveBreakpoint step with 1-based line `n` removes exactly the
source breakpoints whose zero-based start line is `n - 1` — whatever file
they are in — and on zero matches it leaves the set unchanged while still
reporting removal, without raising. -/
theorem c4_removeBreakpoint_by_line (env : Backend) (st : DebugState) (step : DebugStep)
    (n : Nat) (hty : step.type = .removeBreakpoint) (hline : step.line = some n)
    (hn : 1 ≤ n) :
    execStep env st step =
      ⟨[s!"Removed breakpoint at line {n}"], [],
       { st with breakpoints := st.breakpoints.filter (fun bp => !(bpMatchesLine (n - 1) bp)) },
       none⟩ ∧
    (∀ sb : SourceBreakpoint, sb.line = n - 1 →
      Breakpoint.source sb ∉ (execStep env st step).state.breakpoints) ∧
    ((∀ bp ∈ st.breakpoints, bpMatchesLine (n - 1) bp = false) →
      (execStep env st step).state.breakpoints = st.breakpoints) := by
  have hfal : natFalsy (some n) = false := by
    simp [natFalsy]
    omega
  have hexec : execStep env st step =
      ⟨[s!"Removed breakpoint at line {n}"], [],
       { st with breakpoints := st.breakpoints.filter (fun bp => !(bpMatchesLine (n - 1) bp)) },
       none⟩ := by
    simp [execStep, hty, hline, hfal]
  refine ⟨hexec, ?_, ?_⟩
  · intro sb hsb hmem
    rw [hexec] at hmem
    simp only [List.mem_filter] at hmem
    have : bpMatchesLine (n - 1) (Breakpoint.source sb) = true := by
      simp [bpMatchesLine, hsb]
    simp [this] at hmem
  · intro hnone
    rw [hexec]
    simp only
    exact List.filter_eq_self.mpr fun bp hbp => by simp [hnone bp hbp]

/-- C4 witness: removing line 5 deletes the matching source breakpoints of
two different files, keeps the non-matching one and the function
breakpoint, and still reports removal when run with no matches. -/
theorem c4_witness :
    execStep envA
        ⟨[.source ⟨"/w/a.py", 4, 0, true, none⟩, .source ⟨"/w/b.py", 4, 0, true, none⟩,
          .source ⟨"/w/a.py", 7, 0, true, none⟩, .other "fn"], true, []⟩
        { type := .removeBreakpoint, line := some 5 } =
      ⟨["Removed breakpoint at line 5"], [],
       ⟨[.source ⟨"/w/a.py", 7, 0, true, none⟩, .other "fn"], true, []⟩, none⟩ :=
  (c4_removeBreakpoint_by_line envA
    ⟨[.source ⟨"/w/a.py", 4, 0, true, none⟩, .source ⟨"/w/b.py", 4, 0, true, none⟩,
      .source ⟨"/w/a.py", 7, 0, true, none⟩, .other "fn"], true, []⟩
    { type := .removeBreakpoint, line := some 5 } 5 rfl rfl (by omega)).1

/-- C5 (amended): SetBreakpoint validation follows JavaScript truthiness —
an absent or zero line fails with the line error, next an absent or empty
file fails with the file error; otherwise, with the document openable, a
breakpoint at zero-based line `line - 1`, column 0, carrying the optional
condition, is appended to the backend set and a confirmation naming the
1-based line is pushed. -/
theorem c5_setBreakpoint (env : Backend) (st : DebugState) (step : DebugStep)
    (hty : step.type = .setBreakpoint) :
    (natFalsy step.line = true → execStep env st step = ⟨[], [], st, some .lineRequired⟩) ∧
    (natFalsy step.line = false → strFalsy step.file = true →
      execStep env st step = ⟨[], [], st, some .fileRequired⟩) ∧
    (∀ n f, step.line = some n → 1 ≤ n → step.file = some f → f ≠ "" →
      env.openDocOk f = true →
      execStep env st step =
        ⟨[s!"Set breakpoint at line {n}"], [],
         { st with breakpoints :=
             st.breakpoints ++ [.source ⟨f, n - 1, 0, true, step.condition⟩] },
         none⟩) := by
  refine ⟨?_, ?_, ?_⟩
  · intro h
    simp [execStep, hty, h]
  · intro h1 h2
    simp [execStep, hty, h1, h2]
  · intro n f hl hn hf hf0 hopen
    have h1 : natFalsy (some n) = false := by
      simp [natFalsy]
      omega
    have h2 : strFalsy (some f) = false := by
      simp [strFalsy]
      exact hf0
    simp [execStep, hty, h1, h2, hl, hf, optStr, hopen]

/-- C5 witness: a well-formed SetBreakpoint at 1-based line 10 with a
condition appends the breakpoint at zero-based line 9, column 0, and
pushes the confirmation. -/
theorem c5_witness :
    execStep envA stEmpty
        { type := .setBreakpoint, file := some "/w/a.py", line := some 10,
          condition := some "x>0" } =
      ⟨["Set breakpoint at line 10"], [],
       ⟨[.source ⟨"/w/a.py", 9, 0, true, some "x>0"⟩], false, []⟩, none⟩ :=
  (c5_setBreakpoint envA stEmpty
    { type := .setBreakpoint, file := some "/w/a.py", line := some 10,
      condition := some "x>0" } rfl).2.2 10 "/w/a.py" rfl (by omega) rfl (by decide) rfl

/-- C5 counterexample: a SetBreakpoint step whose line and file fields are
both present — line `0` — fails with the line-validation error instead of
constructing a breakpoint at zero-based line `line - 1`, because the
guard uses JavaScript truthiness, not absence. -/
theorem c5_counterexample :
    execStep envA stEmpty
        { type := .setBreakpoint, file := some "/w/a.py", line := some 0 } =
      ⟨[], [], stEmpty, some .lineRequired⟩ :=
  rfl

/-- C6: a Launch step finding the stored launch configuration list absent
or empty throws the no-launch-config error and leaves the host state — in
particular the log of issued start-debugging requests — unchanged, so no
backend start request is issued by the failed step. -/
theorem c6_launch_no_config (env : Backend) (st : DebugState) (step : DebugStep)
    (w : String) (hty : step.type = .launch) (hws : env.workspaceFolder = some w)
    (hcfg : env.launchConfigurations = none ∨ env.launchConfigurations = some []) :
    execStep env st step = ⟨[], [], st, some .noLaunchConfig⟩ ∧
    ∀ p, handleLaunch env st p = (st, .error .noLaunchConfig) := by
  have hl : ∀ p, handleLaunch env st p = (st, .error .noLaunchConfig) := by
    intro p
    rcases hcfg with h | h <;> simp [handleLaunch, hws, h]
  refine ⟨?_, hl⟩
  simp [execStep, hty, hl]

/-- C6 witness: launching against an empty stored configuration list
fails with the no-launch-config error and the start-request log stays
empty. -/
theorem c6_witness :
    execStep envNoConfig stEmpty { type := .launch, file := some "/w/a.py" } =
      ⟨[], [], stEmpty, some .noLaunchConfig⟩ :=
  (c6_launch_no_config envNoConfig stEmpty { type := .launch, file := some "/w/a.py" }
    "/w" rfl rfl (Or.inr rfl)).1

/-- C7: the session wait polls at a fixed 100ms interval under a hard
5000ms ceiling — when no poll instant strictly below the deadline finds a
session it rejects with the timeout instead of blocking, and when a
session is available at some in-window poll it resolves at the first such
poll, which is itself in-window. -/
theorem c7_waitForDebugSession_bounded (avail : Nat → Bool) :
    ((∀ k, pollIntervalMs * k < sessionTimeoutMs → avail k = false) →
      waitForDebugSession avail = none) ∧
    (∀ k, avail k = true → pollIntervalMs * k < sessionTimeoutMs →
      ∃ m, waitForDebugSession avail = some m ∧ avail m = true ∧
        pollIntervalMs * m < sessionTimeoutMs ∧ ∀ i, i < m → avail i = false) := by
  constructor
  · intro h
    apply waitPoll_eq_none avail (sessionTimeoutMs / pollIntervalMs) 0
    intro i h0 hi
    apply h
    simp only [pollIntervalMs, sessionTimeoutMs] at hi ⊢
    omega
  · intro k hk hwin
    have hj : k < 0 + sessionTimeoutMs / pollIntervalMs := by
      simp only [pollIntervalMs, sessionTimeoutMs] at hwin ⊢
      omega
    obtain ⟨m, hm, hma, hmk, hmin⟩ :=
      waitPoll_found avail k hk (sessionTimeoutMs / pollIntervalMs) 0 (Nat.zero_le k) hj
    refine ⟨m, hm, hma, ?_, fun i hi => hmin i (Nat.zero_le i) hi⟩
    simp only [pollIntervalMs, sessionTimeoutMs] at hwin ⊢
    omega

/-- C7 witness: a never-appearing session times out, and a session first
available at poll 49 (instant 4900ms, inside the window) is found at
exactly that poll. -/
theorem c7_witness :
    waitForDebugSession (fun _ => false) = none ∧
    ∃ m, waitForDebugSession (fun k => decide (49 ≤ k)) = some m ∧
      (decide (49 ≤ m)) = true ∧ pollIntervalMs * m < sessionTimeoutMs ∧
      ∀ i, i < m → (decide (49 ≤ i)) = false :=
  ⟨(c7_waitForDebugSession_bounded (fun _ => false)).1 (fun _ _ => rfl),
   (c7_waitForDebugSession_bounded (fun k => decide (49 ≤ k))).2 49 (by decide) (by decide)⟩

/-- C8: for a readable path, getFile returns the newline-join of exactly
one output line per line of the document text, the i-th being the 1-based
index `i + 1`, a colon and a space, then the original line unchanged. -/
theorem c8_getFile_numbering (env : Backend) (path : String)
    (hopen : env.openDocOk path = true) :
    handleGetFile env path =
      .ok (String.intercalate "\n" (numberedLines (env.docText path))) ∧
    (numberedLines (env.docText path)).length =
      (jsSplitLines (env.docText path)).length ∧
    ∀ i, i < (jsSplitLines (env.docText path)).length →
      (numberedLines (env.docText path)).getD i "" =
        (let l := (jsSplitLines (env.docText path)).getD i ""
         s!"{i + 1}: {l}") := by
  refine ⟨by simp [handleGetFile, hopen], numberedLines_length _, fun i hi => ?_⟩
  exact numberedLines_getD (env.docText path) i hi

/-- C8 witness: the two-line document `alpha`, `beta` is returned as
`1: alpha`, newline, `2: beta`, and the second numbered line carries the
index 2. -/
theorem c8_witness :
    handleGetFile envA "/w/a.py" = .ok "1: alpha\n2: beta" ∧
    (numberedLines (envA.docText "/w/a.py")).getD 1 "" = "2: beta" := by
  have h := c8_getFile_numbering envA "/w/a.py" rfl
  refine ⟨h.1.trans (by rfl), (h.2.2 1 (by decide)).trans (by rfl)⟩

/-- C9 (amended): a posted command message whose session identifier is
falsy — absent, or present but empty — is answered with BadRequest; a
nonempty identifier bound to no transport is answered with NotFound; and
a message is forwarded to a handler only when its identifier is bound, so
repeated posts with the same unknown identifier all get NotFound and
never reach a handler. -/
theorem c9_message_routing (transports : List String) (sid : Option String) :
    (sid = none → handleMessagePost transports sid = .badRequest) ∧
    (∀ s, sid = some s → s = "" → handleMessagePost transports sid = .badRequest) ∧
    (∀ s, sid = some s → s ≠ "" → transports.contains s = false →
      handleMessagePost transports sid = .notFound) ∧
    (∀ r, handleMessagePost transports sid = .forwarded r →
      sid = some r ∧ r ≠ "" ∧ transports.contains r = true) := by
  refine ⟨?_, ?_, ?_, ?_⟩
  · intro h
    simp [handleMessagePost, h]
  · intro s hs h0
    simp [handleMessagePost, hs, h0]
  · intro s hs h0 hc
    simp [handleMessagePost, hs, h0]
    simpa using hc
  · intro r h
    cases sid with
    | none => simp [handleMessagePost] at h
    | some s =>
      by_cases h0 : s = ""
      · simp [handleMessagePost, h0] at h
      · by_cases hmem : s ∈ transports
        · have hs : handleMessagePost transports (some s) = .forwarded s := by
            simp [handleMessagePost, h0, hmem]
          rw [hs] at h
          injection h with h1
          subst h1
          exact ⟨rfl, h0, by simpa using hmem⟩
        · simp [handleMessagePost, h0, hmem] at h

/-- C9 witness: two identical posts with the unknown identifier `zzz`
against the registry holding only `abc` both get NotFound, and a post
with a present-but-empty identifier gets BadRequest even when the empty
string sits in the registry. -/
theorem c9_witness :
    handleMessagePost ["abc"] (some "zzz") = .notFound ∧
    handleMessagePost ["abc"] (some "zzz") = .notFound ∧
    handleMessagePost ["abc", ""] (some "") = .badRequest :=
  ⟨(c9_message_routing ["abc"] (some "zzz")).2.2.1 "zzz" rfl (by decide) (by decide),
   (c9_message_routing ["abc"] (some "zzz")).2.2.1 "zzz" rfl (by decide) (by decide),
   (c9_message_routing ["abc", ""] (some "")).2.1 "" rfl rfl⟩

/-- C9 counterexample: a message whose session identifier is present but
empty — bound to no transport — is answered with BadRequest, not the
NotFound the claim predicts for every present-but-unbound identifier. -/
theorem c9_counterexample :
    handleMessagePost ["abc"] (some "") = .badRequest ∧
    handleMessagePost ["abc"] (some "") ≠ .notFound := by
  exact ⟨rfl, by decide⟩

/-- C10: an Evaluate step executed with an active session whose
stack-trace query yields no frames (the source treats a missing
`stackFrames` field and an empty one identically) raises no error and
appends no result line — only an error message is shown — and every
remaining step of the plan still executes. -/
theorem c10_eval_no_frames_skipped (env : Backend) (st : DebugState) (step : DebugStep)
    (rest : List DebugStep) (hty : step.type = .evaluate)
    (hses : st.activeSession = true) (hframes : env.stackTraceResp = .ok []) :
    handleDebug env st (step :: rest) =
      ⟨(handleDebug env st rest).results,
       "No stack frame available" :: (handleDebug env st rest).warnings,
       (handleDebug env st rest).state,
       (handleDebug env st rest).error⟩ := by
  simp [handleDebug, execStep, hty, hses, hframes]

/-- C10 witness: a frameless Evaluate followed by a RemoveBreakpoint step
leaves the plan error-free, pushes only the removal line, and shows the
no-stack-frame message. -/
theorem c10_witness :
    handleDebug envNoFrames stActive
        [{ type := .evaluate, expression := some "x+1" },
         { type := .removeBreakpoint, line := some 3 }] =
      ⟨["Removed breakpoint at line 3"], ["No stack frame available"], stActive, none⟩ := by
  have h := c10_eval_no_frames_skipped envNoFrames stActive
    { type := .evaluate, expression := some "x+1" }
    [{ type := .removeBreakpoint, line := some 3 }] rfl rfl rfl
  rw [h]
  rfl
